import Mathlib

/-!
# Sentinel dialog of FastoNoSQL: topology, discovery merge and commit

A shallow embedding of `src/gui/dialogs/sentinel_dialog.cpp`.

* The tree widget is a value: an ordered list of top-level items, each with an
  ordered list of children, plus the path of the current item.
* Every `new` of a tree item takes the next creation stamp of the dialog, so an
  item keeps an identity that does not depend on its position.
* Shared pointers to connection settings are modelled by the value they point
  to.  The dialog's `sentinel_connection_` can be null and is an `Option`.
* The settings factory either creates an object or fails with
  `UnsupportedBackendError`; nothing in the dialog handles that failure, so it
  ends the member function that made the call and every caller above it.
* Calls that leave the dialog (settings factory, modal dialogs, message box) are
  appended to `calls`; the answers of the modal dialogs are arguments.
* Index loops of the source are index recursions here.
-/

set_option autoImplicit false

namespace fastonosql

namespace core

/-- Backend kinds of `core::ConnectionType`.  The dialog names `REDIS` and
`PIKA`; every other enumerator is `other`. -/
inductive ConnectionType
  | REDIS
  | PIKA
  | other (code : Nat)
  deriving DecidableEq, Repr

end core

namespace proxy

/-- One data-store endpoint (`proxy::IConnectionSettingsBase`): backend type,
hierarchical path and network address.  The dialog stores it without reading
it. -/
structure IConnectionSettingsBase where
  type : core.ConnectionType
  path : String
  address : String
  deriving DecidableEq, Repr

/-- `proxy::SentinelSettings`: a sentinel endpoint and the nodes it supervises. -/
structure SentinelSettings where
  sentinel : IConnectionSettingsBase
  sentinel_nodes : List IConnectionSettingsBase
  deriving DecidableEq, Repr

/-- Modelled from the spec: `proxy::ISentinelSettingsBase` is declared in a header
that is not embedded here.  The committed settings object holds its backend type, its
path, the logging interval (`none` is the default of a new object: logging
disabled, interval unset) and the ordered sentinel entries. -/
structure ISentinelSettingsBase where
  type : core.ConnectionType
  path : String
  msinterval : Option Int
  sentinels : List SentinelSettings
  deriving DecidableEq, Repr

namespace ISentinelSettingsBase

/-- Modelled from the spec: `SetLoggingMsTimeInterval` stores the interval. -/
def SetLoggingMsTimeInterval (r : ISentinelSettingsBase) (v : Int) : ISentinelSettingsBase :=
  { r with msinterval := some v }

/-- Modelled from the spec: logging is enabled once an interval is set. -/
def IsHistoryEnabled (r : ISentinelSettingsBase) : Bool := r.msinterval.isSome

/-- Modelled from the spec: the stored interval, zero while unset. -/
def GetLoggingMsTimeInterval (r : ISentinelSettingsBase) : Int := r.msinterval.getD 0

/-- Modelled from the spec: `AddSentinel` appends one entry to the sentinel list. -/
def AddSentinel (r : ISentinelSettingsBase) (sent : SentinelSettings) : ISentinelSettingsBase :=
  { r with sentinels := r.sentinels ++ [sent] }

/-- Modelled from the spec: `GetSentinels` returns the entries in stored order. -/
def GetSentinels (r : ISentinelSettingsBase) : List SentinelSettings := r.sentinels

end ISentinelSettingsBase

/-- Modelled from the spec: `connection_path_t::GetName` is declared in a
header that is not embedded here; a path is `directory/name`, the name is what follows the last
separator. -/
def connection_path_t.GetName (path : String) : String :=
  String.mk (path.toList.reverse.takeWhile (fun c => c != '/')).reverse

/-- Modelled from the spec: `connection_path_t::GetDirectory` is declared in a header
that is not embedded here; the directory is the path up to and including the last
separator. -/
def connection_path_t.GetDirectory (path : String) : String :=
  String.mk (path.toList.reverse.dropWhile (fun c => c != '/')).reverse

/-- Modelled from the spec: the error of the settings factory for a backend type
that is not in the available set.  The factory is declared in a header that is
not embedded here. -/
inductive UnsupportedBackendError
  | mk (type : core.ConnectionType)
  deriving DecidableEq, Repr

/-- Modelled from the spec: `SentinelConnectionSettingsFactory` is declared
in a header that is not embedded here.  It is configured with the set of available backend
types. -/
structure SentinelConnectionSettingsFactory where
  available : List core.ConnectionType
  deriving DecidableEq, Repr

/-- Modelled from the spec: `CreateFromTypeSentinel(type, path)` returns a new
empty settings object whose type and path are the arguments when the type is
available, and fails with `UnsupportedBackendError` otherwise. -/
def SentinelConnectionSettingsFactory.CreateFromTypeSentinel
    (fac : SentinelConnectionSettingsFactory) (type : core.ConnectionType) (path : String) :
    Except UnsupportedBackendError ISentinelSettingsBase :=
  if type ∈ fac.available then Except.ok ⟨type, path, none, []⟩
  else Except.error (UnsupportedBackendError.mk type)

end proxy

namespace common

/-- Modelled from the spec: `common::file_system::stable_dir_path` is declared
in a header that is not embedded here.  It makes a directory end with exactly one path
separator: trailing separators are dropped and one is appended. -/
def stable_dir_path (path : String) : String :=
  String.mk ((path.toList.reverse.dropWhile (fun c => c == '/')).reverse ++ ['/'])

end common

namespace gui

open core proxy

/-- The default connection name of the dialog. -/
def kDefaultSentinelNameConnection : String := "New Sentinel Connection"

/-- The default connection folder of the dialog. -/
def kDefaultNameConnectionFolder : String := "/"

/-- Dynamic class of a top-level tree item.  The class declarations live in
`gui/connection_listwidget_items.h`, which is not embedded here: a sentinel item
is also a connection item (`remove`, `edit` and `testConnection` reach it through
`dynamic_cast<ConnectionListWidgetItem*>`), a connection item is a tree item. -/
inductive ItemClass
  | QTreeWidgetItem
  | ConnectionListWidgetItem
  | SentinelConnectionWidgetItem
  deriving DecidableEq, Repr

/-- Dynamic class of a second-level tree item; sentinel items are only created
at top level. -/
inductive ChildClass
  | QTreeWidgetItem
  | ConnectionListWidgetItem
  deriving DecidableEq, Repr

/-- A second-level item of the tree widget. -/
structure ChildItem where
  cls : ChildClass
  stamp : Nat
  connection : IConnectionSettingsBase
  deriving DecidableEq, Repr

/-- A top-level item of the tree widget with its children in stored order. -/
structure TopLevelItem where
  cls : ItemClass
  stamp : Nat
  connection : IConnectionSettingsBase
  children : List ChildItem
  deriving DecidableEq, Repr

/-- Position of an item in the two-level tree. -/
inductive ItemPath
  | top (i : Nat)
  | child (i j : Nat)
  deriving DecidableEq, Repr

/-- The tree widget `list_widget_`: top-level items and the current item. -/
structure QTreeWidget where
  topLevel : List TopLevelItem
  current : Option ItemPath
  deriving DecidableEq, Repr

/-- A call that leaves the dialog. -/
inductive Call
  | CreateFromTypeSentinel (type : ConnectionType) (path : String)
  | DiscoverySentinelDiagnosticDialog (sentinel : IConnectionSettingsBase)
  | ConnectionDialog (edited : Option IConnectionSettingsBase)
  | question (item : IConnectionSettingsBase)
  deriving DecidableEq, Repr

/-- How a member function ends: it returns a value, or the failure of the
settings factory leaves it without a return value. -/
inductive Outcome (α : Type)
  | returned (v : α)
  | failed (e : UnsupportedBackendError)
  deriving DecidableEq, Repr

/-- State of `SentinelDialog`: the held settings object, the contents and the
enabled flags of the widgets, the trace of outside calls, the next creation
stamp and whether the base dialog was accepted. -/
structure SentinelDialog where
  sentinel_connection_ : Option ISentinelSettingsBase
  connection_name_ : String
  connection_folder_ : String
  type_connection_ : ConnectionType
  logging_ : Bool
  logging_msec_ : Int
  list_widget_ : QTreeWidget
  connection_name_enabled : Bool
  save_enabled : Bool
  savebar_enabled : Bool
  list_widget_enabled : Bool
  logging_enabled : Bool
  logging_msec_enabled : Bool
  test_button_enabled : Bool
  discovery_button_enabled : Bool
  accepted : Bool
  calls : List Call
  fresh : Nat
  deriving DecidableEq, Repr

/-! ### Tree items -/

/-- Result of `dynamic_cast<ConnectionListWidgetItem*>` on a second-level item. -/
def ChildItem.asConnectionListWidgetItem (c : ChildItem) : Option ChildItem :=
  if c.cls = ChildClass.ConnectionListWidgetItem then some c else none

/-- Result of `dynamic_cast<ConnectionListWidgetItem*>` on a top-level item. -/
def TopLevelItem.asConnectionListWidgetItem (t : TopLevelItem) : Option TopLevelItem :=
  if t.cls = ItemClass.QTreeWidgetItem then none else some t

/-- Result of `dynamic_cast<SentinelConnectionWidgetItem*>` on a top-level item. -/
def TopLevelItem.asSentinelConnectionWidgetItem (t : TopLevelItem) : Option TopLevelItem :=
  if t.cls = ItemClass.SentinelConnectionWidgetItem then some t else none

/-- Number of children, `QTreeWidgetItem::childCount`. -/
def TopLevelItem.childCount (t : TopLevelItem) : Nat := t.children.length

/-- Child at an index, `QTreeWidgetItem::child`; null when out of range. -/
def TopLevelItem.child (t : TopLevelItem) (i : Nat) : Option ChildItem := t.children[i]?

/-- The statement `new SentinelConnectionWidgetItem(core::ServerCommonInfo(), nullptr)`
followed by `setConnection`: a sentinel item without parent and without children. -/
def SentinelConnectionWidgetItem.create (stamp : Nat) (c : IConnectionSettingsBase) :
    TopLevelItem :=
  ⟨ItemClass.SentinelConnectionWidgetItem, stamp, c, []⟩

/-- The three statements `item = new ConnectionListWidgetItem(parent)`,
`item->setConnection(c)` and `parent->addChild(item)`.  The constructor with a
parent links the new item as last child of the parent; `addChild` then finds the
item already owned by a parent and leaves the children as they are.  The net
effect is one new last child. -/
def TopLevelItem.newChild (parent : TopLevelItem) (stamp : Nat) (c : IConnectionSettingsBase) :
    TopLevelItem :=
  { parent with children := parent.children ++ [⟨ChildClass.ConnectionListWidgetItem, stamp, c⟩] }

/-! ### Tree widget -/

namespace QTreeWidget

/-- Number of top-level items. -/
def topLevelItemCount (w : QTreeWidget) : Nat := w.topLevel.length

/-- Top-level item at an index; null when out of range. -/
def topLevelItem (w : QTreeWidget) (i : Nat) : Option TopLevelItem := w.topLevel[i]?

/-- Appends a top-level item. -/
def addTopLevelItem (w : QTreeWidget) (item : TopLevelItem) : QTreeWidget :=
  { w with topLevel := w.topLevel ++ [item] }

/-- The current item cast to `SentinelConnectionWidgetItem*`, with its top-level
index. -/
def currentSentinel (w : QTreeWidget) : Option (Nat × TopLevelItem) :=
  match w.current with
  | some (ItemPath.top i) =>
    (w.topLevelItem i).bind (fun t => (t.asSentinelConnectionWidgetItem).map (fun s => (i, s)))
  | _ => none

/-- The connection of the current item when the current item casts to
`ConnectionListWidgetItem*`. -/
def currentConnection (w : QTreeWidget) : Option IConnectionSettingsBase :=
  match w.current with
  | some (ItemPath.top i) =>
    ((w.topLevelItem i).bind TopLevelItem.asConnectionListWidgetItem).map (fun t => t.connection)
  | some (ItemPath.child i j) =>
    (((w.topLevelItem i).bind (fun t => t.child j)).bind
      ChildItem.asConnectionListWidgetItem).map (fun c => c.connection)
  | none => none

/-- The statement `current_item->setConnection(c)` on the item at a path. -/
def setConnectionAt (w : QTreeWidget) (p : ItemPath) (c : IConnectionSettingsBase) :
    QTreeWidget :=
  match p with
  | ItemPath.top i =>
    { w with topLevel := w.topLevel.modify (fun t => { t with connection := c }) i }
  | ItemPath.child i j =>
    { w with topLevel := (w.topLevel.modify
        (fun t => { t with children := t.children.modify (fun n => { n with connection := c }) j })
        i) }

/-- The statement `delete current_item` on the item at a path: the item leaves
the tree together with its children.  Afterwards no item is current; the item
the view makes current next is a later `setCurrentItem`. -/
def deleteAt (w : QTreeWidget) (p : ItemPath) : QTreeWidget :=
  match p with
  | ItemPath.top i => { topLevel := w.topLevel.eraseIdx i, current := none }
  | ItemPath.child i j =>
    { topLevel := w.topLevel.modify (fun t => { t with children := t.children.eraseIdx j }) i,
      current := none }

end QTreeWidget

/-! ### The dialog -/

/-- The slot `itemSelectionChanged`: the test button follows the cast of the
current item to a connection item, the discovery button the cast to a sentinel
item. -/
def itemSelectionChanged (d : SentinelDialog) : SentinelDialog :=
  { d with
    test_button_enabled := d.list_widget_.currentConnection.isSome,
    discovery_button_enabled := d.list_widget_.currentSentinel.isSome }

/-- The slot `typeConnectionChange`, reading the type of the current combo box
entry: only `REDIS` enables the name, the Save button, the tool bar, the tree and
the logging box; the selection model of the tree is cleared. -/
def typeConnectionChange (d : SentinelDialog) : SentinelDialog :=
  let isValidType : Bool := decide (d.type_connection_ = ConnectionType.REDIS)
  itemSelectionChanged
    { d with
      connection_name_enabled := isValidType,
      save_enabled := isValidType,
      savebar_enabled := isValidType,
      list_widget_ := { d.list_widget_ with current := none },
      list_widget_enabled := isValidType,
      logging_enabled := isValidType }

/-- The slot `loggingStateChange`, reading the state of the logging box. -/
def loggingStateChange (d : SentinelDialog) : SentinelDialog :=
  { d with logging_msec_enabled := d.logging_ }

/-- The view makes the item at a path current (or none) and emits
`itemSelectionChanged`. -/
def setCurrentItem (p : Option ItemPath) (d : SentinelDialog) : SentinelDialog :=
  itemSelectionChanged { d with list_widget_ := { d.list_widget_ with current := p } }

/-- The member `addSentinel`: a new sentinel item with the sentinel's connection,
one new child per supervised node in the order of `sentinel_nodes`, appended as
last top-level item. -/
def addSentinel (sent : SentinelSettings) (d : SentinelDialog) : SentinelDialog :=
  let sent_item := SentinelConnectionWidgetItem.create d.fresh sent.sentinel
  let filled := sent.sentinel_nodes.foldl
    (fun (acc : TopLevelItem × Nat) node => (acc.1.newChild acc.2 node, acc.2 + 1))
    (sent_item, d.fresh + 1)
  { d with list_widget_ := d.list_widget_.addTopLevelItem filled.1, fresh := filled.2 }

/-- The inner loop of `validateAndApply` (its own index `i`): the connections of
the children that cast to `ConnectionListWidgetItem*` are pushed back in child
order. -/
def validateAndApply_nodes (item : TopLevelItem) (i : Nat)
    (sentinel_nodes : List IConnectionSettingsBase) : List IConnectionSettingsBase :=
  if i < item.childCount then
    match (item.child i).bind ChildItem.asConnectionListWidgetItem with
    | some child => validateAndApply_nodes item (i + 1) (sentinel_nodes ++ [child.connection])
    | none => validateAndApply_nodes item (i + 1) sentinel_nodes
  else sentinel_nodes
termination_by item.childCount - i

/-- The outer loop of `validateAndApply` from index `i`: a top-level item that
does not cast to `SentinelConnectionWidgetItem*` is skipped; for a sentinel item
a `SentinelSettings` is filled and added to the object behind `new_connection`. -/
def validateAndApply_sentinels (w : QTreeWidget) (i : Nat)
    (new_connection : ISentinelSettingsBase) : ISentinelSettingsBase :=
  if i < w.topLevelItemCount then
    match (w.topLevelItem i).bind TopLevelItem.asSentinelConnectionWidgetItem with
    | none => validateAndApply_sentinels w (i + 1) new_connection
    | some item =>
      let sent : SentinelSettings := ⟨item.connection, validateAndApply_nodes item 0 []⟩
      validateAndApply_sentinels w (i + 1) (new_connection.AddSentinel sent)
  else new_connection
termination_by w.topLevelItemCount - i

/-- The member `validateAndApply`: compose the path, ask the factory for a new
settings object, set the logging interval when the box is checked, add one
entry per sentinel item, replace `sentinel_connection_` and return true.  The
call of the factory is the first statement that can fail; when it fails the
statements after it do not run. -/
def validateAndApply (fac : SentinelConnectionSettingsFactory) (d : SentinelDialog) :
    SentinelDialog × Outcome Bool :=
  let current_type := d.type_connection_
  let connection_name :=
    if d.connection_name_ = "" then kDefaultSentinelNameConnection else d.connection_name_
  let connection_folder :=
    if d.connection_folder_ = "" then kDefaultNameConnectionFolder else d.connection_folder_
  let path := common.stable_dir_path connection_folder ++ connection_name
  let d1 := { d with calls := d.calls ++ [Call.CreateFromTypeSentinel current_type path] }
  match fac.CreateFromTypeSentinel current_type path with
  | Except.error e => (d1, Outcome.failed e)
  | Except.ok new_connection =>
    let logged :=
      if d.logging_ then new_connection.SetLoggingMsTimeInterval d.logging_msec_
      else new_connection
    let filled := validateAndApply_sentinels d.list_widget_ 0 logged
    ({ d1 with sentinel_connection_ := some filled }, Outcome.returned true)

/-- The slot `accept`: the base dialog is accepted when `validateAndApply`
returns true. -/
def accept (fac : SentinelConnectionSettingsFactory) (d : SentinelDialog) :
    SentinelDialog × Outcome Unit :=
  match validateAndApply fac d with
  | (d1, Outcome.failed e) => (d1, Outcome.failed e)
  | (d1, Outcome.returned true) => ({ d1 with accepted := true }, Outcome.returned ())
  | (d1, Outcome.returned false) => (d1, Outcome.returned ())

/-- The merge loop of `discoverySentinel` from index `i`: one new child of the
sentinel item per selected connection, in the order of `conns`. -/
def discoverySentinel_merge (conns : List IConnectionSettingsBase) (i : Nat)
    (sent_item : TopLevelItem) (fresh : Nat) : TopLevelItem × Nat :=
  if h : i < conns.length then
    let it := conns.get ⟨i, h⟩
    discoverySentinel_merge conns (i + 1) (sent_item.newChild fresh it) (fresh + 1)
  else (sent_item, fresh)
termination_by conns.length - i

/-- The slot `discoverySentinel`.  `diag` is the answer of the discovery dialog:
`none` when it is not accepted, otherwise the connections of
`selectedConnections()`.  Nothing happens unless the current item is a sentinel
item; then `validateAndApply` runs, the discovery dialog runs on the sentinel's
connection, and the selected connections are merged under the sentinel item. -/
def discoverySentinel (fac : SentinelConnectionSettingsFactory)
    (diag : Option (List IConnectionSettingsBase)) (d : SentinelDialog) :
    SentinelDialog × Outcome Unit :=
  match d.list_widget_.currentSentinel with
  | none => (d, Outcome.returned ())
  | some (idx, sent_item) =>
    match validateAndApply fac d with
    | (d1, Outcome.failed e) => (d1, Outcome.failed e)
    | (d1, Outcome.returned false) => (d1, Outcome.returned ())
    | (d1, Outcome.returned true) =>
      let d2 := { d1 with
        calls := d1.calls ++ [Call.DiscoverySentinelDiagnosticDialog sent_item.connection] }
      match diag with
      | none => (d2, Outcome.returned ())
      | some conns =>
        let merged := discoverySentinel_merge conns 0 sent_item d2.fresh
        ({ d2 with
            list_widget_ :=
              { d2.list_widget_ with topLevel := d2.list_widget_.topLevel.set idx merged.1 },
            fresh := merged.2 },
          Outcome.returned ())

/-- The slot `addConnectionSettings`.  `result` is the answer of the connection
dialog: `none` when it is not accepted, otherwise its connection.  Without
`BUILD_WITH_REDIS` the body is empty. -/
def addConnectionSettings (BUILD_WITH_REDIS : Bool) (result : Option IConnectionSettingsBase)
    (d : SentinelDialog) : SentinelDialog :=
  if BUILD_WITH_REDIS then
    let d1 := { d with calls := d.calls ++ [Call.ConnectionDialog none] }
    match result with
    | some sent_connection => addSentinel ⟨sent_connection, []⟩ d1
    | none => d1
  else d

/-- The slot `remove`.  `answer` tells whether the user answers Yes.  Nothing
happens unless the current item casts to `ConnectionListWidgetItem*`; after a
Yes the current item is deleted. -/
def remove (answer : Bool) (d : SentinelDialog) : SentinelDialog :=
  match d.list_widget_.current, d.list_widget_.currentConnection with
  | some p, some c =>
    let d1 := { d with calls := d.calls ++ [Call.question c] }
    if answer then itemSelectionChanged { d1 with list_widget_ := d1.list_widget_.deleteAt p }
    else d1
  | _, _ => d

/-- The slot `edit`.  `result` is the answer of the connection dialog opened on a
clone of the current connection.  Nothing happens unless the current item casts
to `ConnectionListWidgetItem*`; an accepted dialog replaces the connection of
the current item.  Without `BUILD_WITH_REDIS` the rest of the body is empty. -/
def edit (BUILD_WITH_REDIS : Bool) (result : Option IConnectionSettingsBase)
    (d : SentinelDialog) : SentinelDialog :=
  match d.list_widget_.current, d.list_widget_.currentConnection with
  | some p, some connection =>
    if BUILD_WITH_REDIS then
      let d1 := { d with calls := d.calls ++ [Call.ConnectionDialog (some connection)] }
      match result with
      | some new_connection =>
        { d1 with list_widget_ := d1.list_widget_.setConnectionAt p new_connection }
      | none => d1
    else d
  | _, _ => d

/-- The constructor.  `shown_type` is the type of the combo box entry that is
current once the combo box is filled (and, for an existing connection, after
`setCurrentIndex`); the index bookkeeping of the combo box is the toolkit's.
Name and folder come from the path of the incoming connection or from the
defaults, the logging fields from the incoming connection (the spin box keeps
its value within `0 .. INT32_MAX`), and the tree is built by one `addSentinel`
per incoming sentinel entry. -/
def SentinelDialog.create (connection : Option ISentinelSettingsBase)
    (shown_type : ConnectionType) : SentinelDialog :=
  let d0 : SentinelDialog :=
    { sentinel_connection_ := connection,
      connection_name_ :=
        (match connection with
         | some c => connection_path_t.GetName c.path
         | none => kDefaultSentinelNameConnection),
      connection_folder_ :=
        (match connection with
         | some c => connection_path_t.GetDirectory c.path
         | none => kDefaultNameConnectionFolder),
      type_connection_ := shown_type,
      logging_ :=
        (match connection with
         | some c => c.IsHistoryEnabled
         | none => false),
      logging_msec_ :=
        (match connection with
         | some c => max 0 (min c.GetLoggingMsTimeInterval 2147483647)
         | none => 0),
      list_widget_ := ⟨[], none⟩,
      connection_name_enabled := true,
      save_enabled := true,
      savebar_enabled := true,
      list_widget_enabled := true,
      logging_enabled := true,
      logging_msec_enabled := true,
      test_button_enabled := false,
      discovery_button_enabled := true,
      accepted := false,
      calls := [],
      fresh := 0 }
  let d1 :=
    match connection with
    | some c => c.GetSentinels.foldl (fun d sentinel => addSentinel sentinel d) d0
    | none => d0
  loggingStateChange (typeConnectionChange d1)

/-- One user action on the tree of the dialog. -/
inductive Action
  | addSentinel (sent : SentinelSettings)
  | setCurrentItem (p : Option ItemPath)
  | remove (answer : Bool)
  | edit (result : Option IConnectionSettingsBase)
  deriving DecidableEq, Repr

/-- The dialog after one user action. -/
def Action.apply (BUILD_WITH_REDIS : Bool) (d : SentinelDialog) : Action → SentinelDialog
  | Action.addSentinel sent => gui.addSentinel sent d
  | Action.setCurrentItem p => gui.setCurrentItem p d
  | Action.remove answer => gui.remove answer d
  | Action.edit result => gui.edit BUILD_WITH_REDIS result d

/-- The dialog after a sequence of user actions, first action first. -/
def runActions (BUILD_WITH_REDIS : Bool) (d : SentinelDialog) (actions : List Action) :
    SentinelDialog :=
  actions.foldl (Action.apply BUILD_WITH_REDIS) d


/-- The children that consecutive `new ConnectionListWidgetItem(parent)` with
`setConnection` create for a list of connections, the first one with creation
stamp `fresh`. -/
def newChildren (fresh : Nat) : List IConnectionSettingsBase → List ChildItem
  | [] => []
  | c :: cs => ⟨ChildClass.ConnectionListWidgetItem, fresh, c⟩ :: newChildren (fresh + 1) cs

/-! ### Sample data -/

/-- A sentinel endpoint. -/
def sampleSentinelA : IConnectionSettingsBase :=
  ⟨ConnectionType.REDIS, "/sentinelA", "10.0.0.1:26379"⟩

/-- A node at address `10.0.0.2:6379`. -/
def sampleNodeX : IConnectionSettingsBase := ⟨ConnectionType.REDIS, "/nodeX", "10.0.0.2:6379"⟩

/-- Another node, at address `10.0.0.3:6379`. -/
def sampleNodeY : IConnectionSettingsBase := ⟨ConnectionType.REDIS, "/nodeY", "10.0.0.3:6379"⟩

/-- A second entry at the address of `sampleNodeX`. -/
def sampleNodeX2 : IConnectionSettingsBase :=
  ⟨ConnectionType.REDIS, "/nodeX-again", "10.0.0.2:6379"⟩

/-- A factory of a build with the `REDIS` backend only. -/
def sampleFactory : SentinelConnectionSettingsFactory := ⟨[ConnectionType.REDIS]⟩

/-- A stored settings object with one sentinel that supervises one node. -/
def sampleSettings : ISentinelSettingsBase :=
  ⟨ConnectionType.REDIS, "/grp/s1", some 1000, [⟨sampleSentinelA, [sampleNodeX]⟩]⟩

/-- The dialog opened on `sampleSettings`, with the sentinel item current. -/
def sampleDialog : SentinelDialog :=
  setCurrentItem (some (ItemPath.top 0))
    (SentinelDialog.create (some sampleSettings) ConnectionType.REDIS)

/-- The sentinel entries that the commit walk reads off a list of top-level
items. -/
def sentinelEntries (items : List TopLevelItem) : List SentinelSettings :=
  items.filterMap (fun t => (t.asSentinelConnectionWidgetItem).map
    (fun s => (⟨s.connection, s.children.filterMap
      (fun c => (c.asConnectionListWidgetItem).map (fun n => n.connection))⟩ : SentinelSettings)))

/-- The result of `selectedConnections()` of the discovery dialog: the discovered
entries that the user ticked, in discovery order. -/
def selectedConnections (discovered : List IConnectionSettingsBase) (ticked : List Bool) :
    List IConnectionSettingsBase :=
  (discovered.zip ticked).filterMap (fun p => if p.2 then some p.1 else none)

/-- The end-to-end scenario up to the merge: a new dialog, `addSentinel` of
`sentinelA` without nodes, the sentinel item made current, and
`discoverySentinel` where the dialog finds `nodeX` and `nodeY` and the user
ticks `nodeX` only. -/
def scenarioMerged (fac : SentinelConnectionSettingsFactory) (type : ConnectionType)
    (sentinelA nodeX nodeY : IConnectionSettingsBase) : SentinelDialog × Outcome Unit :=
  discoverySentinel fac (some (selectedConnections [nodeX, nodeY] [true, false]))
    (setCurrentItem (some (ItemPath.top 0))
      (addSentinel ⟨sentinelA, []⟩ (SentinelDialog.create none type)))

/-- The end-to-end scenario at its end: the merged dialog gets the name "s", the
folder "/" and logging off, and `validateAndApply` runs. -/
def scenarioCommitted (fac : SentinelConnectionSettingsFactory) (type : ConnectionType)
    (sentinelA nodeX nodeY : IConnectionSettingsBase) : SentinelDialog × Outcome Bool :=
  validateAndApply fac
    { (scenarioMerged fac type sentinelA nodeX nodeY).1 with
      connection_name_ := "s", connection_folder_ := "/", logging_ := false, logging_msec_ := 0 }

/-- The invariant of the tree under user actions: every top-level item is a
sentinel item created before the next stamp, and the stamps of the top-level
items increase along the top-level order. -/
def TreeInv (d : SentinelDialog) : Prop :=
  (∀ t ∈ d.list_widget_.topLevel,
    t.cls = ItemClass.SentinelConnectionWidgetItem ∧ t.stamp < d.fresh) ∧
  List.Pairwise (fun a b => a < b) (d.list_widget_.topLevel.map (fun t => t.stamp))

/-- A sequence of user actions: two sentinels are added, the first one is made
current and removed after a Yes, a third sentinel is added, made current and
edited. -/
def sampleActions : List Action :=
  [Action.addSentinel ⟨sampleSentinelA, [sampleNodeX]⟩,
   Action.addSentinel ⟨sampleNodeY, []⟩,
   Action.setCurrentItem (some (ItemPath.top 0)),
   Action.remove true,
   Action.addSentinel ⟨sampleNodeX2, []⟩,
   Action.setCurrentItem (some (ItemPath.top 1)),
   Action.edit (some sampleSentinelA)]

/-! ### The loops of `validateAndApply` -/

theorem drop_step {α : Type} (l : List α) (i : Nat) (h : i < l.length) :
    ∃ t, l[i]? = some t ∧ l.drop i = t :: l.drop (i + 1) :=
  ⟨l[i], List.getElem?_eq_getElem h, List.drop_eq_getElem_cons h⟩

theorem validateAndApply_nodes_eq (item : TopLevelItem) (i : Nat) (acc : List IConnectionSettingsBase) :
    validateAndApply_nodes item i acc =
      acc ++ (item.children.drop i).filterMap
        (fun c => (c.asConnectionListWidgetItem).map (fun n => n.connection)) := by
  generalize h : item.childCount - i = n
  induction n generalizing i acc with
  | zero =>
    unfold validateAndApply_nodes
    have : ¬ i < item.childCount := by omega
    simp only [this, if_false]
    have h2 : item.children.length ≤ i := by simp [TopLevelItem.childCount] at this; exact this
    simp [List.drop_eq_nil_of_le h2]
  | succ n ih =>
    unfold validateAndApply_nodes
    have hlt : i < item.childCount := by omega
    have hm : item.childCount - (i + 1) = n := by omega
    obtain ⟨t, ht, hd⟩ := drop_step item.children i hlt
    simp only [hlt, if_true, TopLevelItem.child, ht, hd, Option.some_bind, List.filterMap_cons]
    cases hc : t.asConnectionListWidgetItem with
    | none => simp only [Option.map_none']; exact ih (i + 1) acc hm
    | some c => simp only [Option.map_some']; rw [ih (i + 1) _ hm]; simp

theorem validateAndApply_sentinels_eq (w : QTreeWidget) (i : Nat) (r : ISentinelSettingsBase) :
    validateAndApply_sentinels w i r =
      { r with sentinels := (r.sentinels ++
        (w.topLevel.drop i).filterMap (fun t => (t.asSentinelConnectionWidgetItem).map
          (fun s => (⟨s.connection, s.children.filterMap
            (fun c => (c.asConnectionListWidgetItem).map (fun n => n.connection))⟩ :
              SentinelSettings)))) } := by
  generalize h : w.topLevelItemCount - i = n
  induction n generalizing i r with
  | zero =>
    unfold validateAndApply_sentinels
    have : ¬ i < w.topLevelItemCount := by omega
    simp only [this, if_false]
    have h2 : w.topLevel.length ≤ i := by simp [QTreeWidget.topLevelItemCount] at this; exact this
    simp [List.drop_eq_nil_of_le h2]
  | succ n ih =>
    unfold validateAndApply_sentinels
    have hlt : i < w.topLevelItemCount := by omega
    have hm : w.topLevelItemCount - (i + 1) = n := by omega
    obtain ⟨t, ht, hd⟩ := drop_step w.topLevel i hlt
    simp only [hlt, if_true, QTreeWidget.topLevelItem, ht, hd, Option.some_bind, List.filterMap_cons]
    cases hc : t.asSentinelConnectionWidgetItem with
    | none => simp only [Option.map_none']; exact ih (i + 1) r hm
    | some c =>
      simp only [Option.map_some']
      rw [ih (i + 1) _ hm]
      simp [ISentinelSettingsBase.AddSentinel, validateAndApply_nodes_eq]

theorem validateAndApply_available (fac : SentinelConnectionSettingsFactory) (d : SentinelDialog)
    (h : d.type_connection_ ∈ fac.available) :
    validateAndApply fac d =
      ({ d with
          calls := d.calls ++ [Call.CreateFromTypeSentinel d.type_connection_
            (common.stable_dir_path
                (if d.connection_folder_ = "" then kDefaultNameConnectionFolder
                 else d.connection_folder_) ++
              (if d.connection_name_ = "" then kDefaultSentinelNameConnection
               else d.connection_name_))],
          sentinel_connection_ := some
            ⟨d.type_connection_,
             common.stable_dir_path
                (if d.connection_folder_ = "" then kDefaultNameConnectionFolder
                 else d.connection_folder_) ++
              (if d.connection_name_ = "" then kDefaultSentinelNameConnection
               else d.connection_name_),
             if d.logging_ then some d.logging_msec_ else none,
             d.list_widget_.topLevel.filterMap (fun t => (t.asSentinelConnectionWidgetItem).map
               (fun s => (⟨s.connection, s.children.filterMap
                 (fun c => (c.asConnectionListWidgetItem).map (fun n => n.connection))⟩ :
                   SentinelSettings)))⟩ },
        Outcome.returned true) := by
  unfold validateAndApply
  simp only [SentinelConnectionSettingsFactory.CreateFromTypeSentinel, h, if_true]
  cases hl : d.logging_ <;>
    simp [validateAndApply_sentinels_eq, ISentinelSettingsBase.SetLoggingMsTimeInterval]

/-! ### Item creation -/

theorem newChildren_connections (fresh : Nat) (cs : List IConnectionSettingsBase) :
    (newChildren fresh cs).map (fun n => n.connection) = cs := by
  induction cs generalizing fresh with
  | nil => rfl
  | cons c cs ih => simp [newChildren, ih]

theorem newChildren_cast (fresh : Nat) (cs : List IConnectionSettingsBase) :
    (newChildren fresh cs).filterMap
      (fun c => (c.asConnectionListWidgetItem).map (fun n => n.connection)) = cs := by
  induction cs generalizing fresh with
  | nil => rfl
  | cons c cs ih =>
    rw [newChildren, List.filterMap_cons, ih]
    simp [ChildItem.asConnectionListWidgetItem]

theorem newChildren_length (fresh : Nat) (cs : List IConnectionSettingsBase) :
    (newChildren fresh cs).length = cs.length := by
  induction cs generalizing fresh with
  | nil => rfl
  | cons c cs ih => simp [newChildren, ih]

theorem addSentinel_fill (nodes : List IConnectionSettingsBase) (item : TopLevelItem) (k : Nat) :
    nodes.foldl
      (fun (acc : TopLevelItem × Nat) node => (acc.1.newChild acc.2 node, acc.2 + 1)) (item, k) =
      ({ item with children := item.children ++ newChildren k nodes }, k + nodes.length) := by
  induction nodes generalizing item k with
  | nil => simp [newChildren]
  | cons c cs ih =>
    rw [List.foldl_cons, ih]
    simp only [TopLevelItem.newChild, newChildren, List.length_cons, List.append_assoc,
      List.singleton_append, Prod.mk.injEq, true_and]
    omega

theorem discoverySentinel_merge_eq (conns : List IConnectionSettingsBase) (i : Nat)
    (item : TopLevelItem) (k : Nat) :
    discoverySentinel_merge conns i item k =
      ({ item with children := item.children ++ newChildren k (conns.drop i) },
        k + (conns.length - i)) := by
  generalize h : conns.length - i = n
  induction n generalizing i item k with
  | zero =>
    unfold discoverySentinel_merge
    have hn : ¬ i < conns.length := by omega
    have h2 : conns.length ≤ i := by omega
    simp [hn, List.drop_eq_nil_of_le h2, newChildren]
  | succ n ih =>
    unfold discoverySentinel_merge
    have hlt : i < conns.length := by omega
    have hm : conns.length - (i + 1) = n := by omega
    simp only [hlt, dite_true]
    rw [ih (i + 1) _ _ hm, List.drop_eq_getElem_cons hlt]
    simp [TopLevelItem.newChild, newChildren]
    omega

theorem addSentinel_topLevel (sent : SentinelSettings) (d : SentinelDialog) :
    addSentinel sent d =
      { d with
        list_widget_ := { d.list_widget_ with
          topLevel := d.list_widget_.topLevel ++
            [⟨ItemClass.SentinelConnectionWidgetItem, d.fresh, sent.sentinel,
              newChildren (d.fresh + 1) sent.sentinel_nodes⟩] },
        fresh := d.fresh + 1 + sent.sentinel_nodes.length } := by
  simp [addSentinel, addSentinel_fill, SentinelConnectionWidgetItem.create,
    QTreeWidget.addTopLevelItem]
/-! ### Discovery -/

theorem currentSentinel_of_selected (w : QTreeWidget) (idx : Nat) (item : TopLevelItem)
    (hcur : w.current = some (ItemPath.top idx)) (hitem : w.topLevel[idx]? = some item)
    (hcls : item.cls = ItemClass.SentinelConnectionWidgetItem) :
    w.currentSentinel = some (idx, item) := by
  simp [QTreeWidget.currentSentinel, hcur, QTreeWidget.topLevelItem, hitem,
    TopLevelItem.asSentinelConnectionWidgetItem, hcls]

theorem currentSentinel_none_of_unselected (w : QTreeWidget)
    (h : w.current = none ∨ ∃ i j, w.current = some (ItemPath.child i j)) :
    w.currentSentinel = none := by
  rcases h with h | ⟨i, j, h⟩ <;> simp [QTreeWidget.currentSentinel, h]

theorem discoverySentinel_selected (fac : SentinelConnectionSettingsFactory) (d : SentinelDialog)
    (idx : Nat) (item : TopLevelItem) (conns : List IConnectionSettingsBase)
    (hsel : d.list_widget_.currentSentinel = some (idx, item))
    (havail : d.type_connection_ ∈ fac.available) :
    discoverySentinel fac (some conns) d =
      ({ (validateAndApply fac d).1 with
          calls := (validateAndApply fac d).1.calls ++
            [Call.DiscoverySentinelDiagnosticDialog item.connection],
          list_widget_ := { d.list_widget_ with
            topLevel := d.list_widget_.topLevel.set idx
              { item with children := item.children ++ newChildren d.fresh conns } },
          fresh := d.fresh + conns.length },
        Outcome.returned ()) := by
  unfold discoverySentinel
  rw [hsel]
  simp only [validateAndApply_available fac d havail, discoverySentinel_merge_eq, List.drop_zero,
    Nat.sub_zero]

theorem validateAndApply_unavailable (fac : SentinelConnectionSettingsFactory)
    (d : SentinelDialog) (h : d.type_connection_ ∉ fac.available) :
    validateAndApply fac d =
      ({ d with
          calls := d.calls ++ [Call.CreateFromTypeSentinel d.type_connection_
            (common.stable_dir_path
                (if d.connection_folder_ = "" then kDefaultNameConnectionFolder
                 else d.connection_folder_) ++
              (if d.connection_name_ = "" then kDefaultSentinelNameConnection
               else d.connection_name_))] },
        Outcome.failed (UnsupportedBackendError.mk d.type_connection_)) := by
  unfold validateAndApply
  simp only [SentinelConnectionSettingsFactory.CreateFromTypeSentinel, h, if_false]

/-! ### Path normalisation -/

theorem stable_dir_path_shape (folder : String) :
    ∃ (stem : List Char) (k : Nat),
      folder.toList = stem ++ List.replicate k '/' ∧ stem.getLast? ≠ some '/' ∧
      (common.stable_dir_path folder).toList = stem ++ ['/'] := by
  refine ⟨(folder.toList.reverse.dropWhile (fun c => c == '/')).reverse,
    (folder.toList.reverse.takeWhile (fun c => c == '/')).length, ?_, ?_, rfl⟩
  · have htw : folder.toList.reverse.takeWhile (fun c => c == '/') =
        List.replicate (folder.toList.reverse.takeWhile (fun c => c == '/')).length '/' := by
      rw [List.eq_replicate_iff]
      refine ⟨rfl, fun b hb => ?_⟩
      have := List.mem_takeWhile_imp hb
      simpa using this
    have hsplit := List.takeWhile_append_dropWhile (fun c => c == '/') folder.toList.reverse
    have : folder.toList = (folder.toList.reverse).reverse := by simp
    rw [this, ← hsplit, List.reverse_append]
    rw [List.reverse_reverse] at *
    conv_lhs => rw [htw]
    simp
  · rw [List.getLast?_reverse]
    have := List.head?_dropWhile_not (fun c => c == '/') folder.toList.reverse
    intro h
    rw [h] at this
    simp at this
/-! ### Commit -/

theorem validateAndApply_calls (fac : SentinelConnectionSettingsFactory) (d : SentinelDialog) :
    (validateAndApply fac d).1.calls =
      d.calls ++ [Call.CreateFromTypeSentinel d.type_connection_
        (common.stable_dir_path
            (if d.connection_folder_ = "" then kDefaultNameConnectionFolder
             else d.connection_folder_) ++
          (if d.connection_name_ = "" then kDefaultSentinelNameConnection
           else d.connection_name_))] := by
  by_cases h : d.type_connection_ ∈ fac.available
  · rw [validateAndApply_available fac d h]
  · rw [validateAndApply_unavailable fac d h]

/-- C1: `validateAndApply` hands the factory the path `dir(folder') + name'`,
where `name'` is "New Sentinel Connection" for a blank name and the name
otherwise, `folder'` is "/" for a blank folder and the folder otherwise, and
`dir` (`stable_dir_path`) keeps the folder without its trailing separators and
ends it with exactly one separator; an object produced by the factory carries
that path.  Blank name and blank folder give "/New Sentinel Connection"; folder
"/grp/" and name "s1" give "/grp/s1". -/
theorem C1_commit_path (fac : SentinelConnectionSettingsFactory) (d : SentinelDialog) :
    (validateAndApply fac d).1.calls =
        d.calls ++ [Call.CreateFromTypeSentinel d.type_connection_
          (common.stable_dir_path (if d.connection_folder_ = "" then "/" else d.connection_folder_) ++
            (if d.connection_name_ = "" then "New Sentinel Connection" else d.connection_name_))] ∧
    (d.type_connection_ ∈ fac.available →
        ∃ root, (validateAndApply fac d).1.sentinel_connection_ = some root ∧
          root.path =
            common.stable_dir_path
                (if d.connection_folder_ = "" then "/" else d.connection_folder_) ++
              (if d.connection_name_ = "" then "New Sentinel Connection"
               else d.connection_name_)) ∧
    (∀ folder : String, ∃ (stem : List Char) (k : Nat),
        folder.toList = stem ++ List.replicate k '/' ∧ stem.getLast? ≠ some '/' ∧
        (common.stable_dir_path folder).toList = stem ++ ['/']) ∧
    (d.connection_name_ = "" → d.connection_folder_ = "" →
        (validateAndApply fac d).1.calls =
          d.calls ++ [Call.CreateFromTypeSentinel d.type_connection_ "/New Sentinel Connection"]) ∧
    (d.connection_name_ = "s1" → d.connection_folder_ = "/grp/" →
        (validateAndApply fac d).1.calls =
          d.calls ++ [Call.CreateFromTypeSentinel d.type_connection_ "/grp/s1"]) := by
  refine ⟨validateAndApply_calls fac d, ?_, stable_dir_path_shape, ?_, ?_⟩
  · intro h
    rw [validateAndApply_available fac d h]
    exact ⟨_, rfl, rfl⟩
  · intro hn hf
    have e : common.stable_dir_path
          (if ("" : String) = "" then kDefaultNameConnectionFolder else "") ++
        (if ("" : String) = "" then kDefaultSentinelNameConnection else "") =
        "/New Sentinel Connection" := by decide
    rw [validateAndApply_calls, hn, hf, e]
  · intro hn hf
    have e : common.stable_dir_path
          (if ("/grp/" : String) = "" then kDefaultNameConnectionFolder else "/grp/") ++
        (if ("s1" : String) = "" then kDefaultSentinelNameConnection else "s1") =
        "/grp/s1" := by decide
    rw [validateAndApply_calls, hn, hf, e]


/-- Witness of C1: a dialog with blank name and blank folder, and the dialog on
`sampleSettings` with folder "/grp/" and name "s1". -/
theorem C1_commit_path_witness :
    (validateAndApply sampleFactory
        { sampleDialog with connection_name_ := "", connection_folder_ := "" }).1.calls =
      [Call.CreateFromTypeSentinel ConnectionType.REDIS "/New Sentinel Connection"] ∧
    (validateAndApply sampleFactory sampleDialog).1.calls =
      [Call.CreateFromTypeSentinel ConnectionType.REDIS "/grp/s1"] ∧
    ∃ root, (validateAndApply sampleFactory sampleDialog).1.sentinel_connection_ = some root ∧
      root.path = "/grp/s1" :=
  ⟨(C1_commit_path sampleFactory
      { sampleDialog with connection_name_ := "", connection_folder_ := "" }).2.2.2.1 rfl rfl,
   (C1_commit_path sampleFactory sampleDialog).2.2.2.2 (by decide) (by decide),
   (C1_commit_path sampleFactory sampleDialog).2.1 (by decide)⟩

theorem cast_sentinel_eq (t : TopLevelItem) :
    (t.asSentinelConnectionWidgetItem).map
        (fun s => (⟨s.connection, s.children.filterMap
          (fun c => (c.asConnectionListWidgetItem).map (fun n => n.connection))⟩ :
            SentinelSettings)) =
      if t.cls = ItemClass.SentinelConnectionWidgetItem then
        some ⟨t.connection, t.children.filterMap
          (fun c => if c.cls = ChildClass.ConnectionListWidgetItem then some c.connection
            else none)⟩
      else none := by
  have hc : (fun c : ChildItem => (c.asConnectionListWidgetItem).map (fun n => n.connection)) =
      (fun c => if c.cls = ChildClass.ConnectionListWidgetItem then some c.connection
        else none) := by
    funext c
    unfold ChildItem.asConnectionListWidgetItem
    split <;> rfl
  unfold TopLevelItem.asSentinelConnectionWidgetItem
  rw [hc]
  split <;> rfl

/-- C2: when the factory produces an object, `validateAndApply` returns true and
the sentinel list of the new root is, in top-level order, one entry per
top-level item of class `SentinelConnectionWidgetItem`: the item's connection
with the connections of its children of class `ConnectionListWidgetItem` in
child order.  Other top-level items add no entry. -/
theorem C2_commit_entries (fac : SentinelConnectionSettingsFactory) (d : SentinelDialog)
    (havail : d.type_connection_ ∈ fac.available) :
    (validateAndApply fac d).2 = Outcome.returned true ∧
    ∃ root, (validateAndApply fac d).1.sentinel_connection_ = some root ∧
      root.sentinels =
        d.list_widget_.topLevel.filterMap (fun t =>
          if t.cls = ItemClass.SentinelConnectionWidgetItem then
            some ⟨t.connection, t.children.filterMap
              (fun c => if c.cls = ChildClass.ConnectionListWidgetItem then some c.connection
                else none)⟩
          else none) := by
  rw [validateAndApply_available fac d havail]
  refine ⟨rfl, _, rfl, ?_⟩
  simp only [cast_sentinel_eq]

/-- Witness of C2: the dialog on `sampleSettings`. -/
theorem C2_commit_entries_witness :
    sampleDialog.type_connection_ ∈ sampleFactory.available ∧
    (validateAndApply sampleFactory sampleDialog).2 = Outcome.returned true ∧
    ∃ root, (validateAndApply sampleFactory sampleDialog).1.sentinel_connection_ = some root ∧
      root.sentinels =
        sampleDialog.list_widget_.topLevel.filterMap (fun t =>
          if t.cls = ItemClass.SentinelConnectionWidgetItem then
            some ⟨t.connection, t.children.filterMap
              (fun c => if c.cls = ChildClass.ConnectionListWidgetItem then some c.connection
                else none)⟩
          else none) :=
  ⟨by decide, C2_commit_entries sampleFactory sampleDialog (by decide)⟩

/-- C8: when the factory produces an object, the new root has the logging
interval of the spin box when the logging box is checked, and keeps the
factory default (no interval, logging disabled) when it is not, whatever the
spin box holds. -/
theorem C8_commit_logging (fac : SentinelConnectionSettingsFactory) (d : SentinelDialog)
    (havail : d.type_connection_ ∈ fac.available) :
    ∃ root, (validateAndApply fac d).1.sentinel_connection_ = some root ∧
      (d.logging_ = true → root.msinterval = some d.logging_msec_) ∧
      (d.logging_ = false →
        root.msinterval = none ∧ root.IsHistoryEnabled = false ∧
        ∀ path created,
          fac.CreateFromTypeSentinel d.type_connection_ path = Except.ok created →
            root.msinterval = created.msinterval) := by
  rw [validateAndApply_available fac d havail]
  refine ⟨_, rfl, ?_, ?_⟩
  · intro h
    simp [h]
  · intro h
    refine ⟨by simp [h], by simp [h, ISentinelSettingsBase.IsHistoryEnabled], ?_⟩
    intro path created hc
    simp only [SentinelConnectionSettingsFactory.CreateFromTypeSentinel, havail, if_true,
      Except.ok.injEq] at hc
    subst hc
    simp [h]

/-- Witness of C8: the dialog on `sampleSettings`, whose logging box is
checked with interval 1000, and the same dialog with the box unchecked. -/
theorem C8_commit_logging_witness :
    sampleDialog.type_connection_ ∈ sampleFactory.available ∧
    sampleDialog.logging_ = true ∧ sampleDialog.logging_msec_ = 1000 ∧
    (∃ root, (validateAndApply sampleFactory sampleDialog).1.sentinel_connection_ = some root ∧
      root.msinterval = some 1000) ∧
    (∃ root,
      (validateAndApply sampleFactory
        { sampleDialog with logging_ := false }).1.sentinel_connection_ = some root ∧
      root.msinterval = none) :=
  ⟨by decide, by decide, by decide,
   (C8_commit_logging sampleFactory sampleDialog (by decide)).elim
     (fun root h => ⟨root, h.1, h.2.1 (by decide)⟩),
   (C8_commit_logging sampleFactory { sampleDialog with logging_ := false } (by decide)).elim
     (fun root h => ⟨root, h.1, (h.2.2 rfl).1⟩)⟩

theorem discoverySentinel_unselected (fac : SentinelConnectionSettingsFactory)
    (diag : Option (List IConnectionSettingsBase)) (d : SentinelDialog)
    (h : d.list_widget_.currentSentinel = none) :
    discoverySentinel fac diag d = (d, Outcome.returned ()) := by
  unfold discoverySentinel
  rw [h]

theorem accept_unavailable (fac : SentinelConnectionSettingsFactory) (d : SentinelDialog)
    (h : d.type_connection_ ∉ fac.available) :
    (accept fac d).1.accepted = d.accepted ∧
    (accept fac d).2 = Outcome.failed (UnsupportedBackendError.mk d.type_connection_) := by
  unfold accept
  rw [validateAndApply_unavailable fac d h]
  exact ⟨rfl, rfl⟩

theorem addSentinel_entries (sent : SentinelSettings) (d : SentinelDialog) :
    sentinelEntries (addSentinel sent d).list_widget_.topLevel =
      sentinelEntries d.list_widget_.topLevel ++ [sent] := by
  rw [addSentinel_topLevel]
  simp [sentinelEntries, List.filterMap_append, TopLevelItem.asSentinelConnectionWidgetItem,
    newChildren_cast]

theorem addSentinel_type (sent : SentinelSettings) (d : SentinelDialog) :
    (addSentinel sent d).type_connection_ = d.type_connection_ := rfl

theorem foldl_addSentinel (l : List SentinelSettings) (d : SentinelDialog) :
    sentinelEntries (l.foldl (fun d sentinel => addSentinel sentinel d) d).list_widget_.topLevel =
      sentinelEntries d.list_widget_.topLevel ++ l ∧
    (l.foldl (fun d sentinel => addSentinel sentinel d) d).type_connection_ =
      d.type_connection_ := by
  induction l generalizing d with
  | nil => simp
  | cons s l ih =>
    simp only [List.foldl_cons]
    rw [(ih _).1, (ih _).2, addSentinel_entries, addSentinel_type]
    simp

theorem foldl_addSentinel_calls (l : List SentinelSettings) (d : SentinelDialog) :
    (l.foldl (fun d sentinel => addSentinel sentinel d) d).calls = d.calls := by
  induction l generalizing d with
  | nil => rfl
  | cons s l ih =>
    simp only [List.foldl_cons]
    rw [ih]
    rfl

theorem foldl_addSentinel_fields (l : List SentinelSettings) (d : SentinelDialog) :
    (l.foldl (fun d sentinel => addSentinel sentinel d) d).connection_name_ =
      d.connection_name_ ∧
    (l.foldl (fun d sentinel => addSentinel sentinel d) d).connection_folder_ =
      d.connection_folder_ ∧
    (l.foldl (fun d sentinel => addSentinel sentinel d) d).logging_ = d.logging_ ∧
    (l.foldl (fun d sentinel => addSentinel sentinel d) d).logging_msec_ = d.logging_msec_ := by
  induction l generalizing d with
  | nil => exact ⟨rfl, rfl, rfl, rfl⟩
  | cons s l ih =>
    simp only [List.foldl_cons]
    obtain ⟨h1, h2, h3, h4⟩ := ih (addSentinel s d)
    exact ⟨h1.trans rfl, h2.trans rfl, h3.trans rfl, h4.trans rfl⟩

/-- C10: for every incoming settings object and every settings object held
when the commit starts, building the tree in the constructor (one `addSentinel`
per element of the incoming sentinel list) and committing without an edit of the
tree gives, when the factory supports the shown type, a new root made by this
commit: the factory is called once, `validateAndApply` returns true, and the
held object is replaced by the object with the shown type, the composed path,
the logging interval of the dialog and a sentinel list equal to the incoming
one, same sentinels in the same order, each with the same nodes in the same
order. -/
theorem C10_load_commit_roundtrip (fac : SentinelConnectionSettingsFactory)
    (connection : ISentinelSettingsBase) (held : Option ISentinelSettingsBase)
    (shown_type : ConnectionType) (havail : shown_type ∈ fac.available) :
    validateAndApply fac
        { SentinelDialog.create (some connection) shown_type with
          sentinel_connection_ := held } =
      ({ SentinelDialog.create (some connection) shown_type with
          calls := [Call.CreateFromTypeSentinel shown_type
            (common.stable_dir_path
                (if connection_path_t.GetDirectory connection.path = "" then "/"
                 else connection_path_t.GetDirectory connection.path) ++
              (if connection_path_t.GetName connection.path = "" then "New Sentinel Connection"
               else connection_path_t.GetName connection.path))],
          sentinel_connection_ := some
            ⟨shown_type,
             common.stable_dir_path
                (if connection_path_t.GetDirectory connection.path = "" then "/"
                 else connection_path_t.GetDirectory connection.path) ++
              (if connection_path_t.GetName connection.path = "" then "New Sentinel Connection"
               else connection_path_t.GetName connection.path),
             if connection.IsHistoryEnabled
               then some (max 0 (min connection.GetLoggingMsTimeInterval 2147483647))
               else none,
             connection.GetSentinels⟩ },
        Outcome.returned true) := by
  have htype : (SentinelDialog.create (some connection) shown_type).type_connection_ =
      shown_type := by
    simp only [SentinelDialog.create, loggingStateChange, typeConnectionChange,
      itemSelectionChanged]
    exact (foldl_addSentinel _ _).2
  have hentries : sentinelEntries
      (SentinelDialog.create (some connection) shown_type).list_widget_.topLevel =
      connection.GetSentinels := by
    simp only [SentinelDialog.create, loggingStateChange, typeConnectionChange,
      itemSelectionChanged]
    rw [(foldl_addSentinel _ _).1]
    simp [sentinelEntries]
  have hcalls : (SentinelDialog.create (some connection) shown_type).calls = [] := by
    simp only [SentinelDialog.create, loggingStateChange, typeConnectionChange,
      itemSelectionChanged]
    exact foldl_addSentinel_calls _ _
  have hname : (SentinelDialog.create (some connection) shown_type).connection_name_ =
      connection_path_t.GetName connection.path := by
    simp only [SentinelDialog.create, loggingStateChange, typeConnectionChange,
      itemSelectionChanged]
    exact (foldl_addSentinel_fields _ _).1
  have hfolder : (SentinelDialog.create (some connection) shown_type).connection_folder_ =
      connection_path_t.GetDirectory connection.path := by
    simp only [SentinelDialog.create, loggingStateChange, typeConnectionChange,
      itemSelectionChanged]
    exact (foldl_addSentinel_fields _ _).2.1
  have hlog : (SentinelDialog.create (some connection) shown_type).logging_ =
      connection.IsHistoryEnabled := by
    simp only [SentinelDialog.create, loggingStateChange, typeConnectionChange,
      itemSelectionChanged]
    exact (foldl_addSentinel_fields _ _).2.2.1
  have hmsec : (SentinelDialog.create (some connection) shown_type).logging_msec_ =
      max 0 (min connection.GetLoggingMsTimeInterval 2147483647) := by
    simp only [SentinelDialog.create, loggingStateChange, typeConnectionChange,
      itemSelectionChanged]
    exact (foldl_addSentinel_fields _ _).2.2.2
  have h : ({ SentinelDialog.create (some connection) shown_type with
      sentinel_connection_ := held } : SentinelDialog).type_connection_ ∈ fac.available := by
    show (SentinelDialog.create (some connection) shown_type).type_connection_ ∈ fac.available
    rw [htype]; exact havail
  rw [validateAndApply_available fac _ h]
  simp only [htype, hcalls, hname, hfolder, hlog, hmsec, List.nil_append]
  have he := hentries
  unfold sentinelEntries at he
  rw [he]
  rfl

/-- Witness of C10: the dialog on `sampleSettings` while no settings object is
held; the root did not exist before the commit. -/
theorem C10_load_commit_roundtrip_witness :
    ConnectionType.REDIS ∈ sampleFactory.available ∧
    ({ SentinelDialog.create (some sampleSettings) ConnectionType.REDIS with
        sentinel_connection_ := none } : SentinelDialog).sentinel_connection_ = none ∧
    (validateAndApply sampleFactory
        { SentinelDialog.create (some sampleSettings) ConnectionType.REDIS with
          sentinel_connection_ := none }).1.sentinel_connection_ =
      some ⟨ConnectionType.REDIS, "/grp/s1", some 1000, sampleSettings.GetSentinels⟩ :=
  ⟨by decide, rfl,
   congrArg (fun r => r.1.sentinel_connection_)
     (C10_load_commit_roundtrip sampleFactory sampleSettings none ConnectionType.REDIS
       (by decide))⟩

theorem newChildren_cls (fresh : Nat) (cs : List IConnectionSettingsBase) :
    ∀ n ∈ newChildren fresh cs, n.cls = ChildClass.ConnectionListWidgetItem := by
  induction cs generalizing fresh with
  | nil => simp [newChildren]
  | cons c cs ih =>
    intro n hn
    simp only [newChildren, List.mem_cons] at hn
    rcases hn with rfl | hn
    · rfl
    · exact ih _ n hn

theorem set_self_of_getElem? {α : Type} (l : List α) (i : Nat) (a : α) (h : l[i]? = some a) :
    l.set i a = l := by
  induction l generalizing i with
  | nil => simp
  | cons x xs ih =>
    cases i with
    | zero => simp at h; simp [h]
    | succ i => simp at h; simp [ih i h]

/-- C5: with a sentinel item current and a type the factory supports,
`discoverySentinel` with an accepted dialog returns, and the tree differs from
the old one only in the children of the current sentinel item: its old children
stay in place as the first children, the new children follow with the
connections of the approved subset in the subset's order, and the item's
connection, every other top-level item, the top-level order and the current
item are unchanged.  With an empty approved subset, or a dialog that is not
accepted, the whole tree is unchanged. -/
theorem C5_merge_appends (fac : SentinelConnectionSettingsFactory) (d : SentinelDialog)
    (idx : Nat) (item : TopLevelItem) (conns : List IConnectionSettingsBase)
    (hcur : d.list_widget_.current = some (ItemPath.top idx))
    (hitem : d.list_widget_.topLevel[idx]? = some item)
    (hcls : item.cls = ItemClass.SentinelConnectionWidgetItem)
    (havail : d.type_connection_ ∈ fac.available) :
    (discoverySentinel fac (some conns) d).2 = Outcome.returned () ∧
    (∃ added : List ChildItem,
      (discoverySentinel fac (some conns) d).1.list_widget_.topLevel =
        d.list_widget_.topLevel.set idx { item with children := item.children ++ added } ∧
      added.map (fun n => n.connection) = conns ∧
      ∀ n ∈ added, n.cls = ChildClass.ConnectionListWidgetItem) ∧
    (discoverySentinel fac (some conns) d).1.list_widget_.topLevel.length =
      d.list_widget_.topLevel.length ∧
    (∀ k, k ≠ idx →
      (discoverySentinel fac (some conns) d).1.list_widget_.topLevel[k]? =
        d.list_widget_.topLevel[k]?) ∧
    (discoverySentinel fac (some conns) d).1.list_widget_.current = d.list_widget_.current ∧
    (discoverySentinel fac (some []) d).1.list_widget_ = d.list_widget_ ∧
    (discoverySentinel fac none d).1.list_widget_ = d.list_widget_ := by
  have hsel := currentSentinel_of_selected d.list_widget_ idx item hcur hitem hcls
  refine ⟨?_, ?_, ?_, ?_, ?_, ?_, ?_⟩
  · rw [discoverySentinel_selected fac d idx item conns hsel havail]
  · rw [discoverySentinel_selected fac d idx item conns hsel havail]
    exact ⟨newChildren d.fresh conns, rfl, newChildren_connections _ _, newChildren_cls _ _⟩
  · rw [discoverySentinel_selected fac d idx item conns hsel havail]
    simp
  · intro k hk
    rw [discoverySentinel_selected fac d idx item conns hsel havail]
    simp [List.getElem?_set, Ne.symm hk]
  · rw [discoverySentinel_selected fac d idx item conns hsel havail]
  · rw [discoverySentinel_selected fac d idx item [] hsel havail]
    simp only [newChildren, List.append_nil]
    rw [set_self_of_getElem? _ _ _ hitem]
  · unfold discoverySentinel
    rw [hsel]
    simp only [validateAndApply_available fac d havail]

/-- Witness of C5: the dialog on `sampleSettings`, sentinel item current, with
`sampleNodeY` approved. -/
theorem C5_merge_appends_witness :
    (discoverySentinel sampleFactory (some [sampleNodeY]) sampleDialog).2 = Outcome.returned () ∧
    ∃ added : List ChildItem,
      (discoverySentinel sampleFactory (some [sampleNodeY]) sampleDialog).1.list_widget_.topLevel =
        sampleDialog.list_widget_.topLevel.set 0
          { (⟨ItemClass.SentinelConnectionWidgetItem, 0, sampleSentinelA,
              [⟨ChildClass.ConnectionListWidgetItem, 1, sampleNodeX⟩]⟩ : TopLevelItem) with
            children := [⟨ChildClass.ConnectionListWidgetItem, 1, sampleNodeX⟩] ++ added } ∧
      added.map (fun n => n.connection) = [sampleNodeY] ∧
      ∀ n ∈ added, n.cls = ChildClass.ConnectionListWidgetItem :=
  ⟨(C5_merge_appends sampleFactory sampleDialog 0
      ⟨ItemClass.SentinelConnectionWidgetItem, 0, sampleSentinelA,
        [⟨ChildClass.ConnectionListWidgetItem, 1, sampleNodeX⟩]⟩ [sampleNodeY]
      (by decide) (by decide) (by decide) (by decide)).1,
   (C5_merge_appends sampleFactory sampleDialog 0
      ⟨ItemClass.SentinelConnectionWidgetItem, 0, sampleSentinelA,
        [⟨ChildClass.ConnectionListWidgetItem, 1, sampleNodeX⟩]⟩ [sampleNodeY]
      (by decide) (by decide) (by decide) (by decide)).2.1⟩

/-- C6: when the current item is none or a second-level item, `discoverySentinel`
returns the dialog as it was, for every factory and every answer of the
discovery dialog: the tree, the held settings object and the trace of outside
calls are unchanged, so neither the factory nor the discovery dialog was
called. -/
theorem C6_discovery_needs_sentinel (fac : SentinelConnectionSettingsFactory)
    (diag : Option (List IConnectionSettingsBase)) (d : SentinelDialog)
    (h : d.list_widget_.current = none ∨
      ∃ i j, d.list_widget_.current = some (ItemPath.child i j)) :
    discoverySentinel fac diag d = (d, Outcome.returned ()) ∧
    (discoverySentinel fac diag d).1.list_widget_ = d.list_widget_ ∧
    (discoverySentinel fac diag d).1.sentinel_connection_ = d.sentinel_connection_ ∧
    (discoverySentinel fac diag d).1.calls = d.calls := by
  have h0 := discoverySentinel_unselected fac diag d
    (currentSentinel_none_of_unselected d.list_widget_ h)
  rw [h0]
  exact ⟨rfl, rfl, rfl, rfl⟩

/-- Witness of C6: the dialog on `sampleSettings` with the node item current. -/
theorem C6_discovery_needs_sentinel_witness :
    (setCurrentItem (some (ItemPath.child 0 0)) sampleDialog).list_widget_.current =
      some (ItemPath.child 0 0) ∧
    discoverySentinel sampleFactory (some [sampleNodeY])
        (setCurrentItem (some (ItemPath.child 0 0)) sampleDialog) =
      (setCurrentItem (some (ItemPath.child 0 0)) sampleDialog, Outcome.returned ()) :=
  ⟨rfl, (C6_discovery_needs_sentinel sampleFactory (some [sampleNodeY])
    (setCurrentItem (some (ItemPath.child 0 0)) sampleDialog) (Or.inr ⟨0, 0, rfl⟩)).1⟩

/-- Counterexample to C3 as stated: in the dialog on `sampleSettings` the sentinel
supervises one node at address `10.0.0.2:6379`; merging the approved entry
`sampleNodeX2` at the same address leaves two nodes at that address. -/
theorem C3_counterexample :
    (sampleDialog.list_widget_.topLevel[0]?).map
        (fun t => t.children.countP (fun n => n.connection.address = "10.0.0.2:6379")) =
      some 1 ∧
    sampleNodeX2.address = "10.0.0.2:6379" ∧
    ((discoverySentinel sampleFactory (some [sampleNodeX2])
        sampleDialog).1.list_widget_.topLevel[0]?).map
        (fun t => t.children.countP (fun n => n.connection.address = "10.0.0.2:6379")) =
      some 2 := by
  refine ⟨by decide, by decide, ?_⟩
  rw [discoverySentinel_selected sampleFactory sampleDialog 0
    ⟨ItemClass.SentinelConnectionWidgetItem, 0, sampleSentinelA,
      [⟨ChildClass.ConnectionListWidgetItem, 1, sampleNodeX⟩]⟩ [sampleNodeX2]
    (by decide) (by decide)]
  decide

theorem newChildren_countP (fresh : Nat) (cs : List IConnectionSettingsBase) (A : String) :
    (newChildren fresh cs).countP (fun n => n.connection.address = A) =
      cs.countP (fun c => c.address = A) := by
  induction cs generalizing fresh with
  | nil => rfl
  | cons c cs ih => simp [newChildren, List.countP_cons, ih]

/-- C3 as amended: the merge has no duplicate-address filter; every approved
entry becomes a new child.  With a sentinel item current and a type the factory
supports, for every address the number of nodes at that address under the
sentinel after the merge is the number before plus the number of approved
entries at that address. -/
theorem C3_merge_keeps_duplicates (fac : SentinelConnectionSettingsFactory)
    (d : SentinelDialog) (idx : Nat) (item : TopLevelItem)
    (conns : List IConnectionSettingsBase) (A : String)
    (hcur : d.list_widget_.current = some (ItemPath.top idx))
    (hitem : d.list_widget_.topLevel[idx]? = some item)
    (hcls : item.cls = ItemClass.SentinelConnectionWidgetItem)
    (havail : d.type_connection_ ∈ fac.available) :
    ∃ merged,
      (discoverySentinel fac (some conns) d).1.list_widget_.topLevel[idx]? = some merged ∧
      merged.children.countP (fun n => n.connection.address = A) =
        item.children.countP (fun n => n.connection.address = A) +
          conns.countP (fun c => c.address = A) := by
  have hsel := currentSentinel_of_selected d.list_widget_ idx item hcur hitem hcls
  have hlt : idx < d.list_widget_.topLevel.length := by
    rcases Nat.lt_or_ge idx d.list_widget_.topLevel.length with h | h
    · exact h
    · rw [List.getElem?_eq_none h] at hitem; cases hitem
  rw [discoverySentinel_selected fac d idx item conns hsel havail]
  refine ⟨{ item with children := item.children ++ newChildren d.fresh conns }, ?_, ?_⟩
  · simp [List.getElem?_set, hlt]
  · simp [List.countP_append, newChildren_countP]

/-- Witness of C3 as amended: the dialog on `sampleSettings` and the approved
entry `sampleNodeX2`. -/
theorem C3_merge_keeps_duplicates_witness :
    ∃ merged,
      (discoverySentinel sampleFactory (some [sampleNodeX2])
        sampleDialog).1.list_widget_.topLevel[0]? = some merged ∧
      merged.children.countP (fun n => n.connection.address = "10.0.0.2:6379") =
        [(⟨ChildClass.ConnectionListWidgetItem, 1, sampleNodeX⟩ : ChildItem)].countP
            (fun n => n.connection.address = "10.0.0.2:6379") +
          [sampleNodeX2].countP (fun c => c.address = "10.0.0.2:6379") :=
  C3_merge_keeps_duplicates sampleFactory sampleDialog 0
    ⟨ItemClass.SentinelConnectionWidgetItem, 0, sampleSentinelA,
      [⟨ChildClass.ConnectionListWidgetItem, 1, sampleNodeX⟩]⟩ [sampleNodeX2] "10.0.0.2:6379"
    (by decide) (by decide) (by decide) (by decide)

/-! ### End to end -/

/-- C9: for every sentinel, every two discovered nodes and every type the factory
supports: from a new dialog, `addSentinel` of `sentinelA` without nodes and
`discoverySentinel` with only `nodeX` of the discovered `nodeX`, `nodeY`
approved give a tree with one sentinel item whose only child holds `nodeX`;
`validateAndApply` with name "s", folder "/" and logging off then returns true
with a root at path "/s" whose single entry is `sentinelA` with the node list
`[nodeX]`. -/
theorem C9_end_to_end (fac : SentinelConnectionSettingsFactory) (type : ConnectionType)
    (sentinelA nodeX nodeY : IConnectionSettingsBase) (havail : type ∈ fac.available) :
    (scenarioMerged fac type sentinelA nodeX nodeY).2 = Outcome.returned () ∧
    (scenarioMerged fac type sentinelA nodeX nodeY).1.list_widget_.topLevel =
      [⟨ItemClass.SentinelConnectionWidgetItem, 0, sentinelA,
        [⟨ChildClass.ConnectionListWidgetItem, 1, nodeX⟩]⟩] ∧
    (scenarioCommitted fac type sentinelA nodeX nodeY).2 = Outcome.returned true ∧
    (scenarioCommitted fac type sentinelA nodeX nodeY).1.sentinel_connection_ =
      some ⟨type, "/s", none, [⟨sentinelA, [nodeX]⟩]⟩ := by
  have hsel : (setCurrentItem (some (ItemPath.top 0))
      (addSentinel ⟨sentinelA, []⟩ (SentinelDialog.create none type))).list_widget_.currentSentinel =
      some (0, ⟨ItemClass.SentinelConnectionWidgetItem, 0, sentinelA, []⟩) := rfl
  have hmerged := discoverySentinel_selected fac
    (setCurrentItem (some (ItemPath.top 0))
      (addSentinel ⟨sentinelA, []⟩ (SentinelDialog.create none type)))
    0 ⟨ItemClass.SentinelConnectionWidgetItem, 0, sentinelA, []⟩
    (selectedConnections [nodeX, nodeY] [true, false]) hsel havail
  have htop : (scenarioMerged fac type sentinelA nodeX nodeY).1.list_widget_.topLevel =
      [⟨ItemClass.SentinelConnectionWidgetItem, 0, sentinelA,
        [⟨ChildClass.ConnectionListWidgetItem, 1, nodeX⟩]⟩] := by
    unfold scenarioMerged
    rw [hmerged]
    rfl
  have htype : (scenarioMerged fac type sentinelA nodeX nodeY).1.type_connection_ = type := by
    unfold scenarioMerged
    rw [hmerged, validateAndApply_available fac _ havail]
    rfl
  refine ⟨?_, htop, ?_, ?_⟩
  · unfold scenarioMerged
    rw [hmerged]
  · unfold scenarioCommitted
    rw [validateAndApply_available fac _ (by rw [htype]; exact havail)]
  · unfold scenarioCommitted
    rw [validateAndApply_available fac _ (by rw [htype]; exact havail)]
    simp only [htop, htype]
    have e : common.stable_dir_path
          (if ("/" : String) = "" then kDefaultNameConnectionFolder else "/") ++
        (if ("s" : String) = "" then kDefaultSentinelNameConnection else "s") = "/s" := by
      decide
    rw [e]
    rfl

/-- Witness of C9: the scenario on the sample sentinel and nodes. -/
theorem C9_end_to_end_witness :
    ConnectionType.REDIS ∈ sampleFactory.available ∧
    (scenarioMerged sampleFactory ConnectionType.REDIS sampleSentinelA sampleNodeX
      sampleNodeY).1.list_widget_.topLevel =
      [⟨ItemClass.SentinelConnectionWidgetItem, 0, sampleSentinelA,
        [⟨ChildClass.ConnectionListWidgetItem, 1, sampleNodeX⟩]⟩] ∧
    (scenarioCommitted sampleFactory ConnectionType.REDIS sampleSentinelA sampleNodeX
      sampleNodeY).1.sentinel_connection_ =
      some ⟨ConnectionType.REDIS, "/s", none, [⟨sampleSentinelA, [sampleNodeX]⟩]⟩ :=
  ⟨by decide,
   (C9_end_to_end sampleFactory ConnectionType.REDIS sampleSentinelA sampleNodeX sampleNodeY
      (by decide)).2.1,
   (C9_end_to_end sampleFactory ConnectionType.REDIS sampleSentinelA sampleNodeX sampleNodeY
      (by decide)).2.2.2⟩
/-! ### User actions on the tree -/

theorem modify_map_eq {α β : Type} (g : α → β) (f : α → α) (hf : ∀ a, g (f a) = g a)
    (l : List α) (i : Nat) : (l.modify f i).map g = l.map g := by
  induction l generalizing i with
  | nil => simp
  | cons x xs ih =>
    cases i with
    | zero => simp [List.modify_zero_cons, hf]
    | succ i => simp [List.modify_succ_cons, ih]

theorem modify_forall {α : Type} (P : α → Prop) (f : α → α) (hf : ∀ a, P a → P (f a))
    (l : List α) (i : Nat) (h : ∀ a ∈ l, P a) : ∀ a ∈ l.modify f i, P a := by
  induction l generalizing i with
  | nil => simp
  | cons x xs ih =>
    cases i with
    | zero =>
      intro a ha
      simp only [List.modify_zero_cons, List.mem_cons] at ha
      rcases ha with rfl | ha
      · exact hf _ (h x (by simp))
      · exact h a (by simp [ha])
    | succ i =>
      intro a ha
      simp only [List.modify_succ_cons, List.mem_cons] at ha
      rcases ha with rfl | ha
      · exact h a (by simp)
      · exact ih i (fun b hb => h b (by simp [hb])) a ha

theorem TreeInv_addSentinel (sent : SentinelSettings) (d : SentinelDialog) (h : TreeInv d) :
    TreeInv (addSentinel sent d) := by
  rw [addSentinel_topLevel]
  refine ⟨?_, ?_⟩
  · intro t ht
    simp only [List.mem_append, List.mem_singleton] at ht
    rcases ht with ht | rfl
    · exact ⟨(h.1 t ht).1, by have := (h.1 t ht).2; simp only; omega⟩
    · exact ⟨rfl, by simp only; omega⟩
  · simp only [List.map_append, List.map_cons, List.map_nil]
    rw [List.pairwise_append]
    refine ⟨h.2, List.pairwise_singleton _ _, ?_⟩
    intro a ha b hb
    simp only [List.mem_singleton] at hb
    subst hb
    obtain ⟨t, ht, rfl⟩ := List.mem_map.1 ha
    exact (h.1 t ht).2

theorem TreeInv_of_top {d e : SentinelDialog} (h : TreeInv d)
    (htop : e.list_widget_.topLevel = d.list_widget_.topLevel) (hfresh : e.fresh = d.fresh) :
    TreeInv e := by
  unfold TreeInv
  rw [htop, hfresh]
  exact h

theorem TreeInv_deleteAt (d : SentinelDialog) (p : ItemPath) (h : TreeInv d) (e : SentinelDialog)
    (htop : e.list_widget_.topLevel = (d.list_widget_.deleteAt p).topLevel)
    (hfresh : e.fresh = d.fresh) : TreeInv e := by
  unfold TreeInv
  rw [htop, hfresh]
  cases p with
  | top i =>
    simp only [QTreeWidget.deleteAt]
    refine ⟨fun t ht => h.1 t ((List.eraseIdx_sublist _ _).subset ht), ?_⟩
    exact List.Pairwise.sublist ((List.eraseIdx_sublist _ _).map _) h.2
  | child i j =>
    simp only [QTreeWidget.deleteAt]
    refine ⟨?_, ?_⟩
    · apply modify_forall
      · intro a ha
        exact ha
      · exact h.1
    · rw [modify_map_eq]
      · exact h.2
      · intro a
        rfl

theorem TreeInv_setConnectionAt (d : SentinelDialog) (p : ItemPath)
    (c : IConnectionSettingsBase) (h : TreeInv d) (e : SentinelDialog)
    (htop : e.list_widget_.topLevel = (d.list_widget_.setConnectionAt p c).topLevel)
    (hfresh : e.fresh = d.fresh) : TreeInv e := by
  unfold TreeInv
  rw [htop, hfresh]
  cases p with
  | top i =>
    simp only [QTreeWidget.setConnectionAt]
    refine ⟨?_, ?_⟩
    · apply modify_forall
      · intro a ha
        exact ha
      · exact h.1
    · rw [modify_map_eq]
      · exact h.2
      · intro a
        rfl
  | child i j =>
    simp only [QTreeWidget.setConnectionAt]
    refine ⟨?_, ?_⟩
    · apply modify_forall
      · intro a ha
        exact ha
      · exact h.1
    · rw [modify_map_eq]
      · exact h.2
      · intro a
        rfl

theorem TreeInv_remove (answer : Bool) (d : SentinelDialog) (h : TreeInv d) :
    TreeInv (remove answer d) := by
  unfold remove
  split
  · cases answer
    · exact TreeInv_of_top h rfl rfl
    · exact TreeInv_deleteAt d _ h _ rfl rfl
  · exact h

theorem TreeInv_edit (redis : Bool) (result : Option IConnectionSettingsBase)
    (d : SentinelDialog) (h : TreeInv d) : TreeInv (edit redis result d) := by
  unfold edit
  split
  · cases redis
    · exact h
    · cases result with
      | none => exact TreeInv_of_top h rfl rfl
      | some c => exact TreeInv_setConnectionAt d _ c h _ rfl rfl
  · exact h

theorem TreeInv_apply (redis : Bool) (d : SentinelDialog) (a : Action) (h : TreeInv d) :
    TreeInv (Action.apply redis d a) := by
  cases a with
  | addSentinel sent => exact TreeInv_addSentinel sent d h
  | setCurrentItem p => exact TreeInv_of_top h rfl rfl
  | remove answer => exact TreeInv_remove answer d h
  | edit result => exact TreeInv_edit redis result d h

theorem TreeInv_runActions (redis : Bool) (actions : List Action) (d : SentinelDialog)
    (h : TreeInv d) : TreeInv (runActions redis d actions) := by
  induction actions generalizing d with
  | nil => exact h
  | cons a as ih => exact ih _ (TreeInv_apply redis d a h)

theorem TreeInv_empty (d : SentinelDialog) (h : d.list_widget_.topLevel = []) : TreeInv d := by
  unfold TreeInv
  rw [h]
  simp

theorem modify_eq_set_of_getElem? {α : Type} (f : α → α) (l : List α) (i : Nat) (a : α)
    (h : l[i]? = some a) : l.modify f i = l.set i (f a) := by
  induction l generalizing i with
  | nil => simp at h
  | cons x xs ih =>
    cases i with
    | zero => simp at h; simp [List.modify_zero_cons, h]
    | succ i => simp at h; simp [List.modify_succ_cons, ih i h]

theorem currentConnection_top (d : SentinelDialog) (i : Nat) (item : TopLevelItem)
    (hinv : TreeInv d) (hcur : d.list_widget_.current = some (ItemPath.top i))
    (hitem : d.list_widget_.topLevel[i]? = some item) :
    d.list_widget_.currentConnection = some item.connection := by
  have hcls := (hinv.1 item (List.getElem?_mem hitem)).1
  simp [QTreeWidget.currentConnection, hcur, QTreeWidget.topLevelItem, hitem,
    TopLevelItem.asConnectionListWidgetItem, hcls]

/-- C7: after every sequence of `addSentinel`, `setCurrentItem`, `remove` and
`edit` actions on a dialog whose tree was empty, the top-level items are
sentinel items whose creation stamps increase along the top-level order, that
is, the top-level order is the order of the surviving adds.  In such a state
`addSentinel` appends one item with the next stamp (larger than every stamp in
the tree), the sentinel's connection and one child per node; `remove` after a
Yes on a current top-level item erases that position only and keeps the rest
in order, and after a No changes nothing; an accepted `edit` on a current
top-level item replaces the connection at that position and keeps the item's
position, stamp and children. -/
theorem C7_top_level_order (BUILD_WITH_REDIS : Bool) (d0 : SentinelDialog)
    (actions : List Action) (hempty : d0.list_widget_.topLevel = []) :
    List.Pairwise (fun a b => a < b)
      ((runActions BUILD_WITH_REDIS d0 actions).list_widget_.topLevel.map (fun t => t.stamp)) ∧
    (∀ t ∈ (runActions BUILD_WITH_REDIS d0 actions).list_widget_.topLevel,
      t.cls = ItemClass.SentinelConnectionWidgetItem) ∧
    (∀ sent, ∃ added : TopLevelItem,
      (addSentinel sent (runActions BUILD_WITH_REDIS d0 actions)).list_widget_.topLevel =
        (runActions BUILD_WITH_REDIS d0 actions).list_widget_.topLevel ++ [added] ∧
      added.cls = ItemClass.SentinelConnectionWidgetItem ∧
      added.connection = sent.sentinel ∧
      added.children.map (fun n => n.connection) = sent.sentinel_nodes ∧
      ∀ t ∈ (runActions BUILD_WITH_REDIS d0 actions).list_widget_.topLevel,
        t.stamp < added.stamp) ∧
    (∀ i item,
      (runActions BUILD_WITH_REDIS d0 actions).list_widget_.current = some (ItemPath.top i) →
      (runActions BUILD_WITH_REDIS d0 actions).list_widget_.topLevel[i]? = some item →
      (remove true (runActions BUILD_WITH_REDIS d0 actions)).list_widget_.topLevel =
        (runActions BUILD_WITH_REDIS d0 actions).list_widget_.topLevel.eraseIdx i ∧
      (remove false (runActions BUILD_WITH_REDIS d0 actions)).list_widget_ =
        (runActions BUILD_WITH_REDIS d0 actions).list_widget_) ∧
    (∀ i item c,
      (runActions BUILD_WITH_REDIS d0 actions).list_widget_.current = some (ItemPath.top i) →
      (runActions BUILD_WITH_REDIS d0 actions).list_widget_.topLevel[i]? = some item →
      (edit true (some c) (runActions BUILD_WITH_REDIS d0 actions)).list_widget_.topLevel =
        (runActions BUILD_WITH_REDIS d0 actions).list_widget_.topLevel.set i
          { item with connection := c } ∧
      (edit BUILD_WITH_REDIS none (runActions BUILD_WITH_REDIS d0 actions)).list_widget_ =
        (runActions BUILD_WITH_REDIS d0 actions).list_widget_) := by
  have hinv := TreeInv_runActions BUILD_WITH_REDIS actions d0 (TreeInv_empty d0 hempty)
  generalize runActions BUILD_WITH_REDIS d0 actions = d at hinv ⊢
  refine ⟨hinv.2, fun t ht => (hinv.1 t ht).1, ?_, ?_, ?_⟩
  · intro sent
    refine ⟨⟨ItemClass.SentinelConnectionWidgetItem, d.fresh, sent.sentinel,
      newChildren (d.fresh + 1) sent.sentinel_nodes⟩, ?_, rfl, rfl,
      newChildren_connections _ _, fun t ht => (hinv.1 t ht).2⟩
    rw [addSentinel_topLevel]
  · intro i item hcur hitem
    have hconn := currentConnection_top d i item hinv hcur hitem
    unfold remove
    rw [hcur, hconn]
    exact ⟨rfl, rfl⟩
  · intro i item c hcur hitem
    have hconn := currentConnection_top d i item hinv hcur hitem
    unfold edit
    rw [hcur, hconn]
    refine ⟨?_, ?_⟩
    · simp only [if_true, QTreeWidget.setConnectionAt]
      exact modify_eq_set_of_getElem? _ _ _ _ hitem
    · cases BUILD_WITH_REDIS <;> rfl

/-- Witness of C7: `sampleActions` on a new dialog. -/
theorem C7_top_level_order_witness :
    (SentinelDialog.create none ConnectionType.REDIS).list_widget_.topLevel = [] ∧
    List.Pairwise (fun a b => a < b)
      ((runActions true (SentinelDialog.create none ConnectionType.REDIS)
        sampleActions).list_widget_.topLevel.map (fun t => t.stamp)) ∧
    (runActions true (SentinelDialog.create none ConnectionType.REDIS)
        sampleActions).list_widget_.topLevel.map (fun t => t.stamp) = [2, 3] :=
  ⟨rfl, (C7_top_level_order true (SentinelDialog.create none ConnectionType.REDIS)
    sampleActions rfl).1, by decide⟩
end gui

end fastonosql
